import Mathlib

/-!
Verification of the dispatch bridge and mock responder in
src/src/utils/tauri-api.ts.

The module has three parts:
* mockInvoke: a fixed if-chain mapping six command names to canned
  resolved values, rejecting any other command with an
  Unimplemented-mock error naming the command;
* isTauri: a capability check, true when the global window object
  exists and window.__TAURI_IPC__ is not undefined;
* invoke: routes to the live bridge when isTauri() holds and the
  binding is additionally truthy, otherwise to mockInvoke.

JavaScript runtime values are embedded as the inductive type JSValue;
a settled promise is Except JSError JSValue (ok for resolved, error for
rejected or thrown); the ambient environment (the window object and
whatever value the __TAURI_IPC__ property holds) is the type Env.
-/

namespace TauriApi

/-- A JavaScript runtime value, as far as this module can observe one:
undefined, null, booleans, (integer) numbers, strings, arrays and plain
objects given by their ordered field list. -/
inductive JSValue : Type where
  | undef : JSValue
  | null : JSValue
  | boolean : Bool → JSValue
  | num : Int → JSValue
  | str : String → JSValue
  | arr : List JSValue → JSValue
  | obj : List (String × JSValue) → JSValue

/-- A JavaScript Error value, carrying its message. -/
structure JSError : Type where
  message : String

/-- The argument mapping Record of string keys to values. -/
abbrev Args := List (String × JSValue)

/-- The outcome of an invoke call: a resolved value or a rejection. -/
abbrev JSResult := Except JSError JSValue

/-- JavaScript truthiness of a value, as used by the condition on line 38
of tauri-api.ts. -/
def truthy : JSValue → Bool
  | JSValue.undef => false
  | JSValue.null => false
  | JSValue.boolean b => b
  | JSValue.num n => decide (n ≠ 0)
  | JSValue.str s => decide (s ≠ "")
  | JSValue.arr _ => true
  | JSValue.obj _ => true

/-- The live host bridge object: its invoke method
(window.__TAURI_IPC__.invoke on line 48 of tauri-api.ts). -/
structure Bridge : Type where
  invoke : String → Option Args → JSResult

/-- The value the global property window.__TAURI_IPC__ holds: either a
bridge object exposing invoke, or any other plain value (null, false, a
string, and so on) that the runtime may have put there. -/
inductive IPCBinding : Type where
  | plain : JSValue → IPCBinding
  | bridgeObj : Bridge → IPCBinding

/-- The execution environment: either no window object at all
(typeof window is the string undefined), or a window whose
__TAURI_IPC__ property holds the given value (holding JSValue.undef
models the property being absent or explicitly undefined, which
the check on line 33 cannot distinguish). -/
inductive Env : Type where
  | noWindow : Env
  | window : IPCBinding → Env

/-- The comparison window.__TAURI_IPC__ !== undefined on line 33. -/
def bindingDefined : IPCBinding → Bool
  | IPCBinding.plain JSValue.undef => false
  | IPCBinding.plain _ => true
  | IPCBinding.bridgeObj _ => true

/-- Truthiness of the binding value, the second conjunct on line 38. -/
def bindingTruthy : IPCBinding → Bool
  | IPCBinding.plain v => truthy v
  | IPCBinding.bridgeObj _ => true

/-- The Error thrown on line 28 of tauri-api.ts:
new Error of the text Unimplemented mock for: followed by the command. -/
def unimplementedMockError (command : String) : JSError :=
  ⟨"Unimplemented mock for: " ++ command⟩

/-- mockInvoke, lines 9 to 29 of tauri-api.ts: the if-chain over the
command name; the args parameter is never read (only echoed to the
diagnostic console line, modelled separately by mockInvokeLogged). -/
def mockInvoke (command : String) (args : Option Args) : JSResult :=
  if command = "login" then Except.ok (JSValue.str "mock-session-data")
  else if command = "get_timeline" then Except.ok (JSValue.arr [])
  else if command = "create_post" then Except.ok (JSValue.str "mock-post-uri")
  else if command = "like_post" then Except.ok (JSValue.boolean true)
  else if command = "get_post_detail" then Except.ok (JSValue.obj [])
  else if command = "get_post_replies" then Except.ok (JSValue.arr [])
  else Except.error (unimplementedMockError command)

/-- mockInvoke together with its one side effect, the console.warn of
line 10: the console is threaded as explicit state, the warning line is
appended, and the returned outcome is mockInvoke itself. -/
def mockInvokeLogged (console : List String) (command : String) (args : Option Args) :
    List String × JSResult :=
  (console ++ ["Mock invoke called for command: " ++ command], mockInvoke command args)

/-- isTauri, lines 32 to 34: typeof window is not undefined, and
window.__TAURI_IPC__ is not undefined. -/
def isTauri : Env → Bool
  | Env.noWindow => false
  | Env.window b => bindingDefined b

/-- The full routing condition of line 38,
isTauri() and the truthiness of window.__TAURI_IPC__; the second read
of the binding is only reached when isTauri() already holds, mirroring
JavaScript short-circuit evaluation. -/
def liveCond : Env → Bool
  | Env.noWindow => false
  | Env.window b => bindingDefined b && bindingTruthy b

/-- Which path handles a call. -/
inductive Route : Type where
  | live : Route
  | mock : Route
deriving DecidableEq

/-- The path invoke takes for a given environment, read off line 38. -/
def route (env : Env) : Route :=
  if liveCond env then Route.live else Route.mock

/-- Evaluating window.__TAURI_IPC__.invoke(command, args), line 39.
On a bridge object it is the bridge call; on any other value the
property access yields undefined and the call throws a TypeError. -/
def bindingCall : IPCBinding → String → Option Args → JSResult
  | IPCBinding.bridgeObj b, command, args => b.invoke command args
  | IPCBinding.plain _, _, _ =>
      Except.error ⟨"TypeError: window.__TAURI_IPC__.invoke is not a function"⟩

/-- invoke, lines 37 to 42 of tauri-api.ts: when the line-38 condition
holds, return the live bridge call unchanged; otherwise fall back to
mockInvoke. -/
def invoke : Env → String → Option Args → JSResult
  | Env.noWindow, command, args => mockInvoke command args
  | Env.window b, command, args =>
      if bindingDefined b && bindingTruthy b then bindingCall b command args
      else mockInvoke command args

/-- invoke with the routing decision, the command and argument mapping
handed to the chosen path, and the argument mapping after the call made
explicit; invoke passes the caller's identifiers untouched on lines 39
and 41 and contains no assignment to args. -/
structure Dispatch : Type where
  target : Route
  deliveredCommand : String
  deliveredArgs : Option Args
  result : JSResult
  argsAfter : Option Args

/-- The explicit-dispatch reading of lines 37 to 42. -/
def invokeDispatch : Env → String → Option Args → Dispatch
  | Env.noWindow, command, args =>
      ⟨Route.mock, command, args, mockInvoke command args, args⟩
  | Env.window b, command, args =>
      if bindingDefined b && bindingTruthy b then
        ⟨Route.live, command, args, bindingCall b command args, args⟩
      else
        ⟨Route.mock, command, args, mockInvoke command args, args⟩

/-- A sequence of invoke calls, each made in its own (possibly changed)
environment: the capability check happens inside each call. -/
def invokeTrace (steps : List (Env × String × Option Args)) : List JSResult :=
  steps.map fun s => invoke s.1 s.2.1 s.2.2

/-- The six command names the mock responder recognizes. -/
def recognized (command : String) : Bool :=
  command = "login" || command = "get_timeline" || command = "create_post" ||
  command = "like_post" || command = "get_post_detail" || command = "get_post_replies"

/-- Whether a settled result is a resolved value. -/
def resultOk : JSResult → Bool
  | Except.ok _ => true
  | Except.error _ => false

/-- The field names the view layer's Post record shape requires
(interface PostData in PostDetail.tsx); the spec words: identifier,
author, text, creation timestamp, and the three counters. -/
def postFields : List String :=
  ["id", "author", "text", "created_at", "likes_count", "reposts_count", "replies_count"]

/-- Whether an object value carries a field of the given name. -/
def hasField : JSValue → String → Bool
  | JSValue.obj fs, k => fs.any fun f => f.1 = k
  | _, _ => false

/-- Follows the spec words for C6: a value carrying the Post shape,
that is, an object with all the required Post fields. -/
def hasPostShape (v : JSValue) : Bool :=
  postFields.all (hasField v)

/-- A substitute live bridge that echoes its inputs, as the spec's
property 3 suggests for verification. -/
def echoBridge : Bridge :=
  ⟨fun command args =>
    Except.ok (JSValue.obj
      [("command", JSValue.str command),
       ("args", match args with
                | none => JSValue.undef
                | some l => JSValue.obj l)])⟩

theorem route_mock_iff (env : Env) : route env = Route.mock ↔ liveCond env = false := by
  unfold route
  cases h : liveCond env <;> simp

theorem route_live_iff (env : Env) : route env = Route.live ↔ liveCond env = true := by
  unfold route
  cases h : liveCond env <;> simp

theorem invoke_eq_mock {env : Env} (h : route env = Route.mock)
    (command : String) (args : Option Args) :
    invoke env command args = mockInvoke command args := by
  have hl : liveCond env = false := (route_mock_iff env).mp h
  cases env with
  | noWindow => rfl
  | window b =>
      simp only [liveCond] at hl
      simp [invoke, hl]

/-- C1: for each of the six command names in the mock responder's table,
invoking it in mock mode resolves to the exact documented canned value
for every supplied argument mapping, including a missing one: login to
the string mock-session-data, get_timeline to the empty array,
create_post to the string mock-post-uri, like_post to the boolean true,
get_post_detail to the canned post-detail value (the empty object), and
get_post_replies to the empty array. -/
theorem mock_canned_values (env : Env) (args : Option Args)
    (h : route env = Route.mock) :
    invoke env "login" args = Except.ok (JSValue.str "mock-session-data") ∧
    invoke env "get_timeline" args = Except.ok (JSValue.arr []) ∧
    invoke env "create_post" args = Except.ok (JSValue.str "mock-post-uri") ∧
    invoke env "like_post" args = Except.ok (JSValue.boolean true) ∧
    invoke env "get_post_detail" args = Except.ok (JSValue.obj []) ∧
    invoke env "get_post_replies" args = Except.ok (JSValue.arr []) := by
  refine ⟨?_, ?_, ?_, ?_, ?_, ?_⟩ <;> rw [invoke_eq_mock h] <;> rfl

/-- Witness for C1: in the environment with no window object at all
(mock mode) and no argument mapping, each command yields its canned
value. -/
theorem mock_canned_values_witness :
    route Env.noWindow = Route.mock ∧
    (invoke Env.noWindow "login" none = Except.ok (JSValue.str "mock-session-data") ∧
     invoke Env.noWindow "get_timeline" none = Except.ok (JSValue.arr []) ∧
     invoke Env.noWindow "create_post" none = Except.ok (JSValue.str "mock-post-uri") ∧
     invoke Env.noWindow "like_post" none = Except.ok (JSValue.boolean true) ∧
     invoke Env.noWindow "get_post_detail" none = Except.ok (JSValue.obj []) ∧
     invoke Env.noWindow "get_post_replies" none = Except.ok (JSValue.arr [])) :=
  ⟨rfl, mock_canned_values Env.noWindow none rfl⟩

/-- C2: in mock mode, invoke rejects exactly when the command is not one
of the six recognized names, and an unrecognized command rejects with
the Unimplemented-mock error whose message ends in (hence contains) the
offending command name. -/
theorem mock_reject_iff_unrecognized (env : Env) (command : String) (args : Option Args)
    (h : route env = Route.mock) :
    (resultOk (invoke env command args) = false ↔ recognized command = false) ∧
    (recognized command = false →
      invoke env command args = Except.error (unimplementedMockError command) ∧
      ∃ p, (unimplementedMockError command).message = p ++ command) := by
  rw [invoke_eq_mock h]
  constructor
  · simp only [mockInvoke, recognized]
    split_ifs with h1 h2 h3 h4 h5 h6 <;> simp_all [resultOk]
  · intro hr
    refine ⟨?_, ⟨"Unimplemented mock for: ", rfl⟩⟩
    simp only [mockInvoke]
    split_ifs with h1 h2 h3 h4 h5 h6
    · simp [recognized, h1] at hr
    · simp [recognized, h2] at hr
    · simp [recognized, h3] at hr
    · simp [recognized, h4] at hr
    · simp [recognized, h5] at hr
    · simp [recognized, h6] at hr
    · rfl

/-- Witness for C2: the unrecognized command export_data, invoked in
mock mode with no arguments, rejects with the Unimplemented-mock error,
whose message contains the string export_data. -/
theorem mock_reject_iff_unrecognized_witness :
    route Env.noWindow = Route.mock ∧
    recognized "export_data" = false ∧
    resultOk (invoke Env.noWindow "export_data" none) = false ∧
    invoke Env.noWindow "export_data" none = Except.error (unimplementedMockError "export_data") ∧
    (∃ p, (unimplementedMockError "export_data").message = p ++ "export_data") ∧
    (unimplementedMockError "export_data").message = "Unimplemented mock for: export_data" := by
  have h := mock_reject_iff_unrecognized Env.noWindow "export_data" none rfl
  have hrec : recognized "export_data" = false := by rfl
  exact ⟨rfl, hrec, h.1.mpr hrec, (h.2 hrec).1, (h.2 hrec).2, rfl⟩

/-- C8: the mock login path is noninterfering in the credentials: any
two argument mappings (or none) give the same resolved outcome, the
fixed sentinel session string mock-session-data. -/
theorem mock_login_noninterference (env : Env) (a1 a2 : Option Args)
    (h : route env = Route.mock) :
    invoke env "login" a1 = invoke env "login" a2 ∧
    invoke env "login" a1 = Except.ok (JSValue.str "mock-session-data") := by
  rw [invoke_eq_mock h, invoke_eq_mock h]
  exact ⟨rfl, rfl⟩

/-- Witness for C8: concrete credentials versus no arguments at all give
the identical sentinel session value. -/
theorem mock_login_noninterference_witness :
    route Env.noWindow = Route.mock ∧
    (invoke Env.noWindow "login"
        (some [("service", JSValue.str "https://bsky.social"),
               ("identifier", JSValue.str "alice.example"),
               ("password", JSValue.str "hunter2")]) =
      invoke Env.noWindow "login" none ∧
     invoke Env.noWindow "login"
        (some [("service", JSValue.str "https://bsky.social"),
               ("identifier", JSValue.str "alice.example"),
               ("password", JSValue.str "hunter2")]) =
      Except.ok (JSValue.str "mock-session-data")) :=
  ⟨rfl, mock_login_noninterference Env.noWindow
    (some [("service", JSValue.str "https://bsky.social"),
           ("identifier", JSValue.str "alice.example"),
           ("password", JSValue.str "hunter2")]) none rfl⟩

/-- C10: in mock mode the empty-string command name is handled like any
other unrecognized command: it does not resolve, and it rejects with
the same Unimplemented-mock error form, carrying the empty command
name. -/
theorem mock_empty_command_rejects (env : Env) (args : Option Args)
    (h : route env = Route.mock) :
    recognized "" = false ∧
    resultOk (invoke env "" args) = false ∧
    invoke env "" args = Except.error (unimplementedMockError "") := by
  rw [invoke_eq_mock h]
  exact ⟨rfl, rfl, rfl⟩

/-- Witness for C10: the empty command with no arguments in the
windowless environment. -/
theorem mock_empty_command_rejects_witness :
    route Env.noWindow = Route.mock ∧
    (recognized "" = false ∧
     resultOk (invoke Env.noWindow "" none) = false ∧
     invoke Env.noWindow "" none = Except.error (unimplementedMockError "")) :=
  ⟨rfl, mock_empty_command_rejects Env.noWindow none rfl⟩

/-- Truthiness of the window binding seen from the environment. -/
def envBindingTruthy : Env → Bool
  | Env.noWindow => false
  | Env.window b => bindingTruthy b

/-- Running a list of mock calls in order, threading the console state
through mockInvokeLogged, and collecting each settled outcome. -/
def mockRun : List String → List (String × Option Args) → List String × List JSResult
  | console, [] => (console, [])
  | console, (c, a) :: rest =>
      let step := mockInvokeLogged console c a
      let next := mockRun step.1 rest
      (next.1, step.2 :: next.2)

theorem mockRun_results (console : List String) (calls : List (String × Option Args)) :
    (mockRun console calls).2 = calls.map fun p => mockInvoke p.1 p.2 := by
  induction calls generalizing console with
  | nil => rfl
  | cons head tail ih => simp [mockRun, mockInvokeLogged, ih]

/-- C3: with a live bridge object bound, invoke forwards the command
name and argument mapping to the bridge unchanged and returns the
bridge's outcome (resolved value or error) unchanged, with no other
processing on that path. -/
theorem live_forwarding (b : Bridge) (command : String) (args : Option Args) :
    invokeDispatch (Env.window (IPCBinding.bridgeObj b)) command args =
      ⟨Route.live, command, args, b.invoke command args, args⟩ ∧
    invoke (Env.window (IPCBinding.bridgeObj b)) command args = b.invoke command args := by
  exact ⟨rfl, rfl⟩

/-- C4 counterexample: a window whose __TAURI_IPC__ binding is present
(it is not undefined, and isTauri reports true) but holds null is
routed to the mock responder, so presence of the binding alone, for an
arbitrary value it may hold, does not determine live routing. -/
theorem routing_presence_cex :
    isTauri (Env.window (IPCBinding.plain JSValue.null)) = true ∧
    bindingDefined (IPCBinding.plain JSValue.null) = true ∧
    route (Env.window (IPCBinding.plain JSValue.null)) = Route.mock ∧
    invoke (Env.window (IPCBinding.plain JSValue.null)) "get_timeline" none =
      mockInvoke "get_timeline" none := by
  exact ⟨rfl, rfl, rfl, rfl⟩

/-- C4 amended: a call is routed to the live path exactly when the
well-known global binding is present (the window exists and
__TAURI_IPC__ is not undefined) and moreover holds a truthy value; a
present but falsy binding, such as null, routes to the mock responder. -/
theorem routing_present_and_truthy (env : Env) :
    route env = Route.live ↔ (isTauri env = true ∧ envBindingTruthy env = true) := by
  rw [route_live_iff]
  cases env with
  | noWindow => simp [liveCond, isTauri, envBindingTruthy]
  | window b => simp [liveCond, isTauri, envBindingTruthy, Bool.and_eq_true]

/-- Witness for C4 (amended): the echo-bridge environment satisfies the
right-hand side and is indeed routed live. -/
theorem routing_present_and_truthy_witness :
    isTauri (Env.window (IPCBinding.bridgeObj echoBridge)) = true ∧
    envBindingTruthy (Env.window (IPCBinding.bridgeObj echoBridge)) = true ∧
    route (Env.window (IPCBinding.bridgeObj echoBridge)) = Route.live :=
  ⟨rfl, rfl,
    (routing_present_and_truthy (Env.window (IPCBinding.bridgeObj echoBridge))).mpr
      ⟨rfl, rfl⟩⟩

/-- C5: capability detection is evaluated freshly on every call, with
no caching: in a two-call trace whose first environment lacks the
capability and whose second has it, the second call is routed live with
no reset in between, and symmetrically in the reverse order; each entry
of a trace is determined by its own environment, command and arguments
alone. -/
theorem capability_fresh_per_call (e1 e2 : Env) (c1 c2 : String) (a1 a2 : Option Args)
    (h1 : liveCond e1 = false) (h2 : liveCond e2 = true) :
    route e1 = Route.mock ∧ route e2 = Route.live ∧
    invokeTrace [(e1, c1, a1), (e2, c2, a2)] = [mockInvoke c1 a1, invoke e2 c2 a2] ∧
    invokeTrace [(e2, c2, a2), (e1, c1, a1)] = [invoke e2 c2 a2, mockInvoke c1 a1] := by
  have hm : route e1 = Route.mock := (route_mock_iff e1).mpr h1
  have hv : route e2 = Route.live := (route_live_iff e2).mpr h2
  refine ⟨hm, hv, ?_, ?_⟩ <;> simp [invokeTrace, invoke_eq_mock hm]

/-- Witness for C5: the capability is absent (no window) in one call and
present (echo bridge) in the other; routing flips accordingly in both
orders. -/
theorem capability_fresh_per_call_witness :
    liveCond Env.noWindow = false ∧
    liveCond (Env.window (IPCBinding.bridgeObj echoBridge)) = true ∧
    (route Env.noWindow = Route.mock ∧
     route (Env.window (IPCBinding.bridgeObj echoBridge)) = Route.live ∧
     invokeTrace [(Env.noWindow, "get_timeline", none),
                  (Env.window (IPCBinding.bridgeObj echoBridge), "get_timeline", none)] =
       [mockInvoke "get_timeline" none,
        invoke (Env.window (IPCBinding.bridgeObj echoBridge)) "get_timeline" none] ∧
     invokeTrace [(Env.window (IPCBinding.bridgeObj echoBridge), "get_timeline", none),
                  (Env.noWindow, "get_timeline", none)] =
       [invoke (Env.window (IPCBinding.bridgeObj echoBridge)) "get_timeline" none,
        mockInvoke "get_timeline" none]) :=
  ⟨rfl, rfl,
    capability_fresh_per_call Env.noWindow (Env.window (IPCBinding.bridgeObj echoBridge))
      "get_timeline" "get_timeline" none none rfl rfl⟩

/-- C6 counterexample: in mock mode, get_post_detail resolves to the
empty object, which carries none of the Post record's fields, refuting
that the resolved value carries the Post shape. -/
theorem get_post_detail_not_post_shape :
    invoke Env.noWindow "get_post_detail" none = Except.ok (JSValue.obj []) ∧
    hasPostShape (JSValue.obj []) = false ∧
    ¬ (∀ v, invoke Env.noWindow "get_post_detail" none = Except.ok v →
        hasPostShape v = true) := by
  refine ⟨rfl, rfl, ?_⟩
  intro hAll
  have h2 := hAll (JSValue.obj []) rfl
  simp [hasPostShape, postFields, hasField] at h2

/-- C6 amended: in mock mode, get_post_detail resolves for every
argument mapping to the canned empty object, a record carrying none of
the Post fields. -/
theorem get_post_detail_empty_object (env : Env) (args : Option Args)
    (h : route env = Route.mock) :
    invoke env "get_post_detail" args = Except.ok (JSValue.obj []) ∧
    hasPostShape (JSValue.obj []) = false := by
  rw [invoke_eq_mock h]
  exact ⟨rfl, rfl⟩

/-- Witness for C6 (amended): a concrete post identifier argument still
yields the empty object. -/
theorem get_post_detail_empty_object_witness :
    route Env.noWindow = Route.mock ∧
    (invoke Env.noWindow "get_post_detail"
        (some [("post_id", JSValue.str "at://did:plc:x/app.bsky.feed.post/1")]) =
       Except.ok (JSValue.obj []) ∧
     hasPostShape (JSValue.obj []) = false) :=
  ⟨rfl, get_post_detail_empty_object Env.noWindow
    (some [("post_id", JSValue.str "at://did:plc:x/app.bsky.feed.post/1")]) rfl⟩

/-- C7: the mock responder is stateless and deterministic: in any run,
from any console state and after any earlier calls, the outcome of a
call is mockInvoke of its own command and arguments, so two runs ending
in the same call settle identically whatever happened before. -/
theorem mock_stateless_deterministic (s1 s2 : List String)
    (pre1 pre2 : List (String × Option Args)) (c : String) (a : Option Args) :
    (mockRun s1 (pre1 ++ [(c, a)])).2.getLast? = some (mockInvoke c a) ∧
    (mockRun s2 (pre2 ++ [(c, a)])).2.getLast? = some (mockInvoke c a) ∧
    (mockRun s1 (pre1 ++ [(c, a)])).2.getLast? =
      (mockRun s2 (pre2 ++ [(c, a)])).2.getLast? := by
  have key : ∀ (s : List String) (pre : List (String × Option Args)),
      (mockRun s (pre ++ [(c, a)])).2.getLast? = some (mockInvoke c a) := by
    intro s pre
    rw [mockRun_results]
    simp
  exact ⟨key s1 pre1, key s2 pre2, (key s1 pre1).trans (key s2 pre2).symm⟩

/-- C9: invoke never mutates the supplied argument mapping on either
path: the mapping delivered to the live bridge or the mock responder,
and the mapping after the call, equal the caller's mapping, the command
is delivered unchanged, and the dispatch outcome agrees with invoke. -/
theorem invoke_preserves_args (env : Env) (command : String) (args : Option Args) :
    (invokeDispatch env command args).deliveredArgs = args ∧
    (invokeDispatch env command args).argsAfter = args ∧
    (invokeDispatch env command args).deliveredCommand = command ∧
    (invokeDispatch env command args).result = invoke env command args := by
  cases env with
  | noWindow => exact ⟨rfl, rfl, rfl, rfl⟩
  | window b =>
      simp only [invokeDispatch, invoke]
      split_ifs <;> exact ⟨rfl, rfl, rfl, rfl⟩

end TauriApi
